import Mathlib

/-!
Verification development for the DODGE_BALL arcade game (`src/main.rs`).

The fixed-step simulation core is shallowly embedded here: `f32` values are
idealized as real numbers (rationals for the score/time formatter, where the
computations stay exact on the inputs of interest), Bevy ECS queries become
lists of records, and fire-and-forget audio/haptics requests become lists of
request values accumulated in an explicit state record.
-/

namespace DodgeBall

/-- Constant `PLAYER_MOVEMENT_SPEED_NORMALIZED` from `src/main.rs`. -/
def PLAYER_MOVEMENT_SPEED_NORMALIZED : ℝ := 0.5

/-- Constant `BULLET_MOVEMENT_SPEED_NORMALIZED` from `src/main.rs`. -/
def BULLET_MOVEMENT_SPEED_NORMALIZED : ℝ := 0.4

/-- Constant `COLLISION_PARTICLE_LIFETIME` from `src/main.rs`. -/
def COLLISION_PARTICLE_LIFETIME : ℝ := 0.5

/-- Constant `COLLISION_PARTICLE_COUNT` from `src/main.rs`. -/
def COLLISION_PARTICLE_COUNT : ℕ := 32

/-- Constant `SCREENSHAKE_ON_SHOOT` from `src/main.rs`. -/
def SCREENSHAKE_ON_SHOOT : ℝ := 0.005

/-- Constant `SCREENSHAKE_ON_BOUNCE` from `src/main.rs`. -/
def SCREENSHAKE_ON_BOUNCE : ℝ := 0.003

/-- Constant `SCREENSHAKE_ON_DEATH` from `src/main.rs`. -/
def SCREENSHAKE_ON_DEATH : ℝ := 0.01

/-- Constant `PLAYER_SIZE` from `src/main.rs` (player radius as a fraction of
the shorter screen dimension). -/
def PLAYER_SIZE : ℝ := 0.02

/-- Bevy `FloatExt::lerp`: `self + (rhs - self) * t`, used by
`timer.bullet_timer += 0.05.lerp(2.0, ...)` in `spawn_bullet`. -/
def lerpF (a b t : ℝ) : ℝ := a + (b - a) * t

/-- The amount added to the player's `bullet_timer` after a projectile spawn,
from `spawn_bullet`: `0.05.lerp(2.0, (score.value / 10.0).squared().min(1.0))`. -/
noncomputable def cooldownAdded (score : ℝ) : ℝ :=
  lerpF 0.05 2.0 (min ((score / 10.0) ^ 2) 1.0)

/-- The formula stated by the specification for the post-spawn cooldown amount:
`lerp(0.05, 2.0, min(1, (s/10)^2))`. Stated from the spec's words, to be
compared with `cooldownAdded`, which is translated from the source. -/
noncomputable def cooldownAddedSpec (s : ℝ) : ℝ :=
  lerpF 0.05 2.0 (min 1.0 ((s / 10.0) ^ 2))

/-- The integer part of `convert_time_to_text` from `src/main.rs`: everything
after the `(time * 100.) as u32` cast, as a function of the cast's result
(`raw`, saturated at `u32::MAX` as the Rust float-to-integer cast does).
The string is assembled field by field exactly as the source does. -/
def formatCs (raw : ℕ) : String :=
  let ms : ℕ := min raw (2 ^ 32 - 1)
  let s : ℕ := (ms - ms % 100) / 100
  let m : ℕ := (s - s % 60) / 60
  let timeText : String := ""
  let timeText := timeText ++ (if m < 10 then "0" else "")
  let timeText := timeText ++ toString m
  let timeText := timeText ++ ":"
  let timeText := timeText ++ (if s % 60 < 10 then "0" else "")
  let timeText := timeText ++ toString (s % 60)
  let timeText := timeText ++ ":"
  let timeText := timeText ++ (if ms % 100 < 10 then "0" else "")
  let timeText := timeText ++ toString (ms % 100)
  timeText

/-- `convert_time_to_text` from `src/main.rs`, over exact rationals. The
`(time * 100.) as u32` cast truncates toward zero (clamping negatives to `0`,
mirrored by `Int.toNat` over the floor, which agrees with truncation after the
clamp). On the inputs the claims exercise, the `f32` computation and the
exact rational one agree. -/
def convert_time_to_text (time : ℚ) : String :=
  formatCs (Int.toNat ⌊time * 100⌋)

/-- The `ControlDevice` enum from `src/main.rs`; the `#[default]` attribute in
the source sits on the `Mouse` variant. -/
inductive ControlDevice where
  | Keyboard
  | Gamepad
  | Mouse
deriving DecidableEq

/-- The value produced by the derived `Default` implementation of
`ControlDevice` (the variant carrying `#[default]`). -/
def controlDeviceDerivedDefault : ControlDevice := ControlDevice.Mouse

/-- The value the startup code actually stores in the `PrimaryControlDevice`
resource: `app.insert_resource(PrimaryControlDevice { value: ControlDevice::Keyboard })`
in `main`. -/
def initialPrimaryControlDevice : ControlDevice := ControlDevice.Keyboard

/-- The `AppState` states enum from `src/main.rs`. -/
inductive AppState where
  | Uninitialized
  | Menu
  | InGame
  | Paused
  | GameOver
deriving DecidableEq

/-- A 3-component vector of real numbers, modelling Bevy's `Vec3` of `f32`. -/
structure Vec3 where
  x : ℝ
  y : ℝ
  z : ℝ

instance : Inhabited Vec3 := ⟨⟨0, 0, 0⟩⟩

instance : Add Vec3 := ⟨fun a b => ⟨a.x + b.x, a.y + b.y, a.z + b.z⟩⟩

instance : Sub Vec3 := ⟨fun a b => ⟨a.x - b.x, a.y - b.y, a.z - b.z⟩⟩

instance : Neg Vec3 := ⟨fun a => ⟨-a.x, -a.y, -a.z⟩⟩

/-- Scalar multiplication of a `Vec3`, modelling glam's `f32 * Vec3`. -/
def Vec3.smul (c : ℝ) (v : Vec3) : Vec3 := ⟨c * v.x, c * v.y, c * v.z⟩

/-- glam's `Vec3::length`. -/
noncomputable def Vec3.length (v : Vec3) : ℝ :=
  Real.sqrt (v.x ^ 2 + v.y ^ 2 + v.z ^ 2)

/-- glam's `Vec3::distance`: the length of the difference vector. -/
noncomputable def Vec3.dist (a b : Vec3) : ℝ := (a - b).length

/-- glam's `Vec3::normalize`: `self * self.length_recip()`. On the zero
vector the `f32` code produces NaN components; in the real-valued model the
reciprocal of `0` is `0`, so the result there is the (equally non-unit) zero
vector. -/
noncomputable def Vec3.normalize (v : Vec3) : Vec3 := Vec3.smul v.length⁻¹ v

/-- The `DisplayProperties` resource from `src/main.rs`. -/
structure DisplayProperties where
  w : ℝ
  h : ℝ
  half_w : ℝ
  half_h : ℝ
  shorter_dimension : ℝ

/-- The `DisplayProperties` value inserted at startup in `main`. -/
def initialDisplayProperties : DisplayProperties :=
  { w := 640, h := 480, half_w := 320, half_h := 240, shorter_dimension := 480 }

/-- Rust's `f32::clamp(self, lo, hi)`, which (for `lo ≤ hi`, the only case the
program exercises) is `if self < lo { lo } else if self > hi { hi } else { self }`. -/
noncomputable def rustClamp (x lo hi : ℝ) : ℝ :=
  if x < lo then lo else if x > hi then hi else x

/-- `clamp_player` from `src/main.rs`: clamps the player translation into the
half-extent box inset by the player radius `PLAYER_SIZE * shorter_dimension`,
zeroing the `z` coordinate. -/
noncomputable def clamp_player (display : DisplayProperties) (p : Vec3) : Vec3 :=
  let ps := PLAYER_SIZE * display.shorter_dimension
  { x := rustClamp p.x (-display.half_w + ps) (display.half_w - ps)
    y := rustClamp p.y (-display.half_h + ps) (display.half_h - ps)
    z := 0 }

/-- A projectile: the `Transform` translation together with the
`ScreenEdgeBouncer` velocity component. -/
structure Bullet where
  pos : Vec3
  vel : Vec3

instance : Inhabited Bullet := ⟨⟨default, default⟩⟩

/-- The body of the `move_bouncers` loop from `src/main.rs`, for one
projectile: integrate position by `velocity * speed * shorter_dimension * dt`,
then flip the sign of each velocity component whose motion has crossed the
radius-inset margin on its axis (no repositioning, each axis independent). -/
noncomputable def moveBouncerStep (display : DisplayProperties) (dt : ℝ)
    (b : Bullet) : Bullet :=
  let w_margin := display.half_w - PLAYER_SIZE * display.shorter_dimension
  let h_margin := display.half_h - PLAYER_SIZE * display.shorter_dimension
  let pos := b.pos
    + Vec3.smul (BULLET_MOVEMENT_SPEED_NORMALIZED * display.shorter_dimension * dt) b.vel
  let vx := if b.vel.x > 0 then (if pos.x > w_margin then -b.vel.x else b.vel.x)
            else (if pos.x < -w_margin then -b.vel.x else b.vel.x)
  let vy := if b.vel.y > 0 then (if pos.y > h_margin then -b.vel.y else b.vel.y)
            else (if pos.y < -h_margin then -b.vel.y else b.vel.y)
  { pos := pos, vel := { x := vx, y := vy, z := b.vel.z } }

/-- `move_bouncers` from `src/main.rs`, over the list of projectiles. -/
noncomputable def move_bouncers (display : DisplayProperties) (dt : ℝ)
    (bs : List Bullet) : List Bullet :=
  bs.map (moveBouncerStep display dt)

/-- A gamepad rumble request (`GamepadRumbleRequest::Add`); the source writes
one per connected gamepad with explicit duration and motor intensities. -/
structure Rumble where
  durationMs : ℕ
  strongMotor : ℝ
  weakMotor : ℝ

/-- The state read and written by `spawn_bullet`: the player's cooldown
timer, the projectile store, and the accumulated feedback requests. -/
structure SpawnState where
  bulletTimer : ℝ
  bullets : List Bullet
  screenshake : ℝ
  audio : List String
  rumbles : List Rumble

/-- `spawn_bullet` from `src/main.rs`. `g` is the number of connected
gamepads; `dt` the virtual-time delta. The source has no zero-vector guard:
when `aim = player`, `normalize` produces NaN components in `f32` (the zero
vector in this real-valued model) and the projectile is spawned regardless. -/
noncomputable def spawn_bullet (display : DisplayProperties) (g : ℕ)
    (playerPos aimPos : Vec3) (score dt : ℝ) (st : SpawnState) : SpawnState :=
  let timer := st.bulletTimer - dt
  if timer > 0 then { st with bulletTimer := timer }
  else
    let initial_velocity := (aimPos - playerPos).normalize
    let initial_position := playerPos
      + Vec3.smul (PLAYER_SIZE * 3.0 * display.shorter_dimension) initial_velocity
    { st with
      bulletTimer := timer + cooldownAdded score
      bullets := st.bullets ++ [{ pos := initial_position, vel := initial_velocity }]
      screenshake := st.screenshake + SCREENSHAKE_ON_SHOOT
      audio := st.audio ++ ["Boom29.wav"]
      rumbles := st.rumbles
        ++ (List.range g).map (fun _ => { durationMs := 100, strongMotor := 0.1, weakMotor := 0.3 }) }

/-- A burst particle spawned on a projectile-projectile collision (the
`BounceParticle` component plus its spawn transform). -/
structure BounceParticle where
  lifetime : ℝ
  velocity : Vec3
  pos : Vec3

/-- The ambient inputs of `handle_bullet_collision`: the player translation,
the display metrics, the number of connected gamepads, and the deterministic
RNG source (modelled abstractly as the sequence of unit-circle samples that
successive `circle.sample_boundary` calls return). -/
structure CollisionCfg where
  player : Vec3
  display : DisplayProperties
  g : ℕ
  rngStream : ℕ → ℝ × ℝ

/-- The state read and written by `handle_bullet_collision`: the projectile
store, the pending `NextState` transition, the virtual-time pause flag, the
screenshake scalar, and the accumulated audio/rumble/particle effects.
`rngCursor` counts how many RNG samples have been drawn so far. -/
structure ColState where
  bullets : List Bullet
  nextState : Option AppState
  virtualPaused : Bool
  screenshake : ℝ
  audio : List String
  rumbles : List Rumble
  particles : List BounceParticle
  rngCursor : ℕ

/-- `collision_distance` as computed at the top of `handle_bullet_collision`:
`PLAYER_SIZE * 2.0 * shorter_dimension`. -/
noncomputable def collisionDistance (display : DisplayProperties) : ℝ :=
  PLAYER_SIZE * 2.0 * display.shorter_dimension

/-- The two staged death rumble requests written per connected gamepad by the
player-kill branch of `handle_bullet_collision`. -/
def deathRumbles (g : ℕ) : List Rumble :=
  (List.range g).flatMap (fun _ =>
    [{ durationMs := 200, strongMotor := 0.9, weakMotor := 0.6 },
     { durationMs := 400, strongMotor := 0.2, weakMotor := 0.5 }])

/-- The player-kill branch of `handle_bullet_collision`, applied to one slot
of the current pair: if that projectile is within `collision_distance` of the
player, pause virtual time, set the next state to `GameOver`, add the death
screenshake, and request death audio plus two rumble pulses per gamepad. -/
noncomputable def killCheck (cfg : CollisionCfg) (b : Bullet) (st : ColState) :
    ColState :=
  if b.pos.dist cfg.player < collisionDistance cfg.display then
    { st with
      virtualPaused := true
      nextState := some AppState.GameOver
      screenshake := st.screenshake + SCREENSHAKE_ON_DEATH
      audio := st.audio ++ ["Random32.wav"]
      rumbles := st.rumbles ++ deathRumbles cfg.g }
  else st

/-- The `COLLISION_PARTICLE_COUNT` burst particles spawned at the midpoint of
a colliding pair, their outward directions drawn from the RNG stream starting
at cursor `c`. -/
def burstParticles (cfg : CollisionCfg) (c : ℕ) (avg : Vec3) :
    List BounceParticle :=
  (List.range COLLISION_PARTICLE_COUNT).map (fun k =>
    { lifetime := COLLISION_PARTICLE_LIFETIME
      velocity := ⟨(cfg.rngStream (c + k)).1, (cfg.rngStream (c + k)).2, 0⟩
      pos := avg })

/-- The pair-bounce tail of one `iter_combinations_mut` iteration in
`handle_bullet_collision`: the `> collision_distance` and `< 1.0`
early-`continue` tests, then reflection of both velocities to the outward
normal `dir = normalize(a - b)`, bounce screenshake, the flick audio cue and
the burst-particle batch at the pair midpoint. `b1`, `b2` are the pair's
members as fetched at the top of the loop body, `ij` their indices. -/
noncomputable def bounceStep (cfg : CollisionCfg) (b1 b2 : Bullet) (ij : ℕ × ℕ)
    (st : ColState) : ColState :=
  if b1.pos.dist b2.pos > collisionDistance cfg.display then st
  else if b1.pos.dist b2.pos < 1.0 then st
  else
    let average_position := Vec3.smul (1 / 2) (b1.pos + b2.pos)
    let dir := (b1.pos - b2.pos).normalize
    { st with
      bullets :=
        (st.bullets.set ij.1 { b1 with vel := dir }).set ij.2 { b2 with vel := -dir }
      screenshake := st.screenshake + SCREENSHAKE_ON_BOUNCE
      audio := st.audio ++ ["Ball_Flick.wav"]
      particles := st.particles ++ burstParticles cfg st.rngCursor average_position
      rngCursor := st.rngCursor + COLLISION_PARTICLE_COUNT }

/-- One iteration of the `iter_combinations_mut` loop in
`handle_bullet_collision`, for the index pair `ij`: the player-kill check for
each member of the pair, then the pair-bounce resolution. -/
noncomputable def pairStep (cfg : CollisionCfg) (st : ColState) (ij : ℕ × ℕ) :
    ColState :=
  bounceStep cfg (st.bullets.getD ij.1 default) (st.bullets.getD ij.2 default) ij
    (killCheck cfg (st.bullets.getD ij.2 default)
      (killCheck cfg (st.bullets.getD ij.1 default) st))

/-- All unordered index pairs drawn from a list of indices, in the
lexicographic order in which `iter_combinations_mut` yields combinations. -/
def combPairs : List ℕ → List (ℕ × ℕ)
  | [] => []
  | i :: rest => (rest.map (fun j => (i, j))) ++ combPairs rest

/-- `handle_bullet_collision` from `src/main.rs`: one fixed-step run of the
O(n²) pairwise scan over all combinations of two live projectiles. -/
noncomputable def handle_bullet_collision (cfg : CollisionCfg) (st : ColState) :
    ColState :=
  (combPairs (List.range st.bullets.length)).foldl (pairStep cfg) st

/-- Indicator (0 or 1) of the player-kill condition for the projectile at
index `i` of the store `bs`. -/
noncomputable def killInd (cfg : CollisionCfg) (bs : List Bullet) (i : ℕ) : ℕ :=
  if (bs.getD i default).pos.dist cfg.player < collisionDistance cfg.display then 1
  else 0

/-- Indicator (0 or 1) of the pair-bounce condition for the index pair `ij`
of the store `bs` (distance within `collision_distance` and at least `1.0`). -/
noncomputable def bounceInd (cfg : CollisionCfg) (bs : List Bullet) (ij : ℕ × ℕ) :
    ℕ :=
  if (bs.getD ij.1 default).pos.dist (bs.getD ij.2 default).pos
      > collisionDistance cfg.display then 0
  else if (bs.getD ij.1 default).pos.dist (bs.getD ij.2 default).pos < 1.0 then 0
  else 1

/-- The number of index pairs satisfying the pair-bounce condition in one run
of `handle_bullet_collision`. The pair tests only read positions, which the
resolver never modifies, so this is determined by the initial store. -/
noncomputable def bounceCount (cfg : CollisionCfg) (st : ColState) : ℕ :=
  ((combPairs (List.range st.bullets.length)).map (bounceInd cfg st.bullets)).sum

/-- A deterministic stand-in RNG stream used for the concrete evaluations. -/
def constStream : ℕ → ℝ × ℝ := fun _ => (1, 0)

/-- Concrete configuration: player at the origin, startup display metrics
(so the collision threshold is `0.02 * 2 * 480 = 19.2`), one connected
gamepad. -/
def exCfg : CollisionCfg :=
  { player := ⟨0, 0, 0⟩, display := initialDisplayProperties, g := 1
    rngStream := constStream }

/-- Concrete in-game collision state with exactly one live projectile, at
distance 1 from the player (inside the kill threshold). -/
def c1State : ColState :=
  { bullets := [{ pos := ⟨1, 0, 0⟩, vel := ⟨0, 1, 0⟩ }]
    nextState := none, virtualPaused := false, screenshake := 0
    audio := [], rumbles := [], particles := [], rngCursor := 0 }

/-- Concrete collision state with three projectiles at mutual distances 3, 4
and 5 (a 3-4-5 triangle), all inside the bounce band `[1, 19.2)`. -/
def c5cState : ColState :=
  { bullets := [{ pos := ⟨0, 0, 0⟩, vel := ⟨0, 0, 1⟩ },
                { pos := ⟨3, 0, 0⟩, vel := ⟨0, 0, 1⟩ },
                { pos := ⟨0, 4, 0⟩, vel := ⟨0, 0, 1⟩ }]
    nextState := none, virtualPaused := false, screenshake := 0
    audio := [], rumbles := [], particles := [], rngCursor := 0 }

/-- Concrete collision state with two live projectiles at distance 3 and the
second at distance 3 from the first (used by the two-projectile reflection
witness). -/
def c5State : ColState :=
  { bullets := [{ pos := ⟨3, 0, 0⟩, vel := ⟨0, 0, 1⟩ },
                { pos := ⟨0, 0, 0⟩, vel := ⟨0, 1, 0⟩ }]
    nextState := none, virtualPaused := false, screenshake := 0
    audio := [], rumbles := [], particles := [], rngCursor := 0 }

/-- Concrete collision state with two live projectiles: index 0 at distance 3
from the player (inside the 19.2 kill threshold), index 1 at distance 100
(outside it, and at pair distance 97 from index 0, outside the bounce band). -/
def c10State : ColState :=
  { bullets := [{ pos := ⟨3, 0, 0⟩, vel := ⟨0, 1, 0⟩ },
                { pos := ⟨100, 0, 0⟩, vel := ⟨0, 1, 0⟩ }]
    nextState := none, virtualPaused := false, screenshake := 0
    audio := [], rumbles := [], particles := [], rngCursor := 0 }

/-- Concrete spawn state: cooldown expired, empty projectile store. -/
def c4State : SpawnState :=
  { bulletTimer := 0, bullets := [], screenshake := 0, audio := [], rumbles := [] }

lemma cooldownAdded_eq (s : ℝ) :
    cooldownAdded s = 0.05 + 1.95 * min ((s / 10) ^ 2) 1 := by
  unfold cooldownAdded lerpF
  norm_num

lemma cooldownAdded_mono {s t : ℝ} (hs : 0 ≤ s) (hst : s ≤ t) :
    cooldownAdded s ≤ cooldownAdded t := by
  rw [cooldownAdded_eq, cooldownAdded_eq]
  have h1 : (s / 10) ^ 2 ≤ (t / 10) ^ 2 :=
    pow_le_pow_left₀ (by linarith) (by linarith) 2
  have h2 : min ((s / 10) ^ 2) 1 ≤ min ((t / 10) ^ 2) 1 := min_le_min h1 le_rfl
  linarith

lemma cooldownAdded_lower (s : ℝ) : 0.05 ≤ cooldownAdded s := by
  rw [cooldownAdded_eq]
  have h : (0 : ℝ) ≤ min ((s / 10) ^ 2) 1 := le_min (sq_nonneg _) zero_le_one
  linarith

lemma cooldownAdded_upper (s : ℝ) : cooldownAdded s ≤ 2 := by
  rw [cooldownAdded_eq]
  have h : min ((s / 10) ^ 2) 1 ≤ 1 := min_le_right _ _
  linarith

lemma cooldownAdded_cap {s : ℝ} (h : 10 ≤ s) : cooldownAdded s = 2 := by
  rw [cooldownAdded_eq]
  have h1 : (1 : ℝ) ≤ (s / 10) ^ 2 := by
    have : (1 : ℝ) ≤ s / 10 := by linarith
    nlinarith
  rw [min_eq_right h1]
  norm_num

lemma cooldownAdded_zero : cooldownAdded 0 = 0.05 := by
  rw [cooldownAdded_eq]
  norm_num

lemma Vec3.sub_def (a b : Vec3) : a - b = ⟨a.x - b.x, a.y - b.y, a.z - b.z⟩ := rfl

lemma Vec3.neg_def (a : Vec3) : -a = ⟨-a.x, -a.y, -a.z⟩ := rfl

lemma Vec3.neg_neg (a : Vec3) : -(-a) = a := by
  cases a
  rw [Vec3.neg_def, Vec3.neg_def]
  simp

lemma Vec3.length_nonneg (v : Vec3) : 0 ≤ v.length := Real.sqrt_nonneg _

lemma Vec3.length_neg (v : Vec3) : (-v).length = v.length := by
  unfold Vec3.length
  rw [Vec3.neg_def]
  ring_nf

lemma Vec3.length_smul (c : ℝ) (v : Vec3) :
    (Vec3.smul c v).length = |c| * v.length := by
  unfold Vec3.length Vec3.smul
  have h : (c * v.x) ^ 2 + (c * v.y) ^ 2 + (c * v.z) ^ 2
      = c ^ 2 * (v.x ^ 2 + v.y ^ 2 + v.z ^ 2) := by ring
  rw [h, Real.sqrt_mul (sq_nonneg c), Real.sqrt_sq_eq_abs]

lemma Vec3.length_normalize {v : Vec3} (h : v.length ≠ 0) :
    v.normalize.length = 1 := by
  unfold Vec3.normalize
  rw [Vec3.length_smul, abs_of_nonneg (inv_nonneg.mpr v.length_nonneg)]
  exact inv_mul_cancel₀ h

lemma Vec3.dist_eq {a b : Vec3} {r : ℝ} (hr : 0 ≤ r)
    (h : (a.x - b.x) ^ 2 + (a.y - b.y) ^ 2 + (a.z - b.z) ^ 2 = r ^ 2) :
    a.dist b = r := by
  unfold Vec3.dist Vec3.length
  rw [Vec3.sub_def]
  simp only
  rw [h, Real.sqrt_sq hr]

lemma Vec3.not_dist_lt {a b : Vec3} {c : ℝ} (hc : 0 ≤ c)
    (h : c ^ 2 ≤ (a.x - b.x) ^ 2 + (a.y - b.y) ^ 2 + (a.z - b.z) ^ 2) :
    ¬ a.dist b < c := by
  rw [not_lt]
  unfold Vec3.dist Vec3.length
  rw [Vec3.sub_def]
  simp only
  exact (Real.le_sqrt hc (by positivity)).mpr h

lemma Vec3.normalize_eval {v : Vec3} {r : ℝ} (hr : 0 < r)
    (h : v.x ^ 2 + v.y ^ 2 + v.z ^ 2 = r ^ 2) :
    v.normalize = Vec3.smul r⁻¹ v := by
  unfold Vec3.normalize Vec3.length
  rw [h, Real.sqrt_sq hr.le]

lemma rustClamp_mem {lo hi : ℝ} (x : ℝ) (h : lo ≤ hi) :
    lo ≤ rustClamp x lo hi ∧ rustClamp x lo hi ≤ hi := by
  unfold rustClamp
  split_ifs with h1 h2
  · exact ⟨le_rfl, h⟩
  · exact ⟨h, le_rfl⟩
  · exact ⟨not_lt.mp h1, not_lt.mp h2⟩

lemma killInd_congr {cfg : CollisionCfg} {bs bs' : List Bullet}
    (h : ∀ i, (bs'.getD i default).pos = (bs.getD i default).pos) (i : ℕ) :
    killInd cfg bs' i = killInd cfg bs i := by
  unfold killInd
  rw [h]

lemma bounceInd_congr {cfg : CollisionCfg} {bs bs' : List Bullet}
    (h : ∀ i, (bs'.getD i default).pos = (bs.getD i default).pos) (ij : ℕ × ℕ) :
    bounceInd cfg bs' ij = bounceInd cfg bs ij := by
  unfold bounceInd
  rw [h, h]

lemma deathRumbles_length (g : ℕ) : (deathRumbles g).length = 2 * g := by
  unfold deathRumbles
  induction g with
  | zero => rfl
  | succ n ih =>
    rw [List.range_succ, List.flatMap_append]
    simp only [List.length_append, ih]
    simp
    omega

lemma killCheck_spec (cfg : CollisionCfg) (b : Bullet) (st : ColState) :
    (killCheck cfg b st).bullets = st.bullets
    ∧ (killCheck cfg b st).audio.count "Random32.wav"
        = st.audio.count "Random32.wav"
          + (if b.pos.dist cfg.player < collisionDistance cfg.display then 1 else 0)
    ∧ (killCheck cfg b st).rumbles.length
        = st.rumbles.length
          + 2 * cfg.g
            * (if b.pos.dist cfg.player < collisionDistance cfg.display then 1 else 0)
    ∧ (killCheck cfg b st).screenshake
        = st.screenshake
          + (((if b.pos.dist cfg.player < collisionDistance cfg.display then 1 else 0 : ℕ) : ℝ))
            * SCREENSHAKE_ON_DEATH := by
  unfold killCheck
  split_ifs with h
  · refine ⟨rfl, ?_, ?_, ?_⟩
    · simp [List.count_append]
    · simp [List.length_append, deathRumbles_length]
    · simp
  · simp

lemma getD_set_pos_eq (bs : List Bullet) (n i : ℕ) (b : Bullet)
    (hpos : b.pos = (bs.getD n default).pos) :
    ((bs.set n b).getD i default).pos = (bs.getD i default).pos := by
  rw [List.getD_eq_getElem?_getD, List.getD_eq_getElem?_getD, List.getElem?_set]
  rcases eq_or_ne n i with h | h
  · subst h
    by_cases hn : n < bs.length
    · rw [if_pos rfl, if_pos hn, Option.getD_some]
      rw [List.getD_eq_getElem?_getD] at hpos
      exact hpos
    · rw [if_pos rfl, if_neg hn, List.getElem?_eq_none (le_of_not_lt hn)]
  · rw [if_neg h]

lemma bounceStep_spec (cfg : CollisionCfg) (b1 b2 : Bullet) (ij : ℕ × ℕ)
    (st : ColState) (hp1 : b1.pos = (st.bullets.getD ij.1 default).pos)
    (hp2 : b2.pos = (st.bullets.getD ij.2 default).pos) :
    (bounceStep cfg b1 b2 ij st).bullets.length = st.bullets.length
    ∧ (∀ i, ((bounceStep cfg b1 b2 ij st).bullets.getD i default).pos
          = (st.bullets.getD i default).pos)
    ∧ (bounceStep cfg b1 b2 ij st).audio.count "Random32.wav"
        = st.audio.count "Random32.wav"
    ∧ (bounceStep cfg b1 b2 ij st).rumbles.length = st.rumbles.length
    ∧ (bounceStep cfg b1 b2 ij st).screenshake
        = st.screenshake
          + (((if b1.pos.dist b2.pos > collisionDistance cfg.display then 0
               else if b1.pos.dist b2.pos < 1.0 then 0 else 1 : ℕ) : ℝ))
            * SCREENSHAKE_ON_BOUNCE := by
  unfold bounceStep
  split_ifs with h1 h2
  · exact ⟨rfl, fun i => rfl, rfl, rfl, by simp⟩
  · exact ⟨rfl, fun i => rfl, rfl, rfl, by simp⟩
  · refine ⟨?_, ?_, ?_, rfl, ?_⟩
    · simp [List.length_set]
    · intro i
      have e1 : ({ b1 with vel := (b1.pos - b2.pos).normalize } : Bullet).pos
          = (st.bullets.getD ij.1 default).pos := hp1
      have e2 : ({ b2 with vel := -(b1.pos - b2.pos).normalize } : Bullet).pos
          = ((st.bullets.set ij.1
              { b1 with vel := (b1.pos - b2.pos).normalize }).getD ij.2 default).pos := by
        rw [getD_set_pos_eq _ _ _ _ e1]
        exact hp2
      rw [getD_set_pos_eq _ _ _ _ e2, getD_set_pos_eq _ _ _ _ e1]
    · have : List.count "Random32.wav" ["Ball_Flick.wav"] = 0 := by decide
      simp [List.count_append, this]
    · simp

lemma pairStep_spec (cfg : CollisionCfg) (st : ColState) (ij : ℕ × ℕ) :
    (pairStep cfg st ij).bullets.length = st.bullets.length
    ∧ (∀ i, ((pairStep cfg st ij).bullets.getD i default).pos
          = (st.bullets.getD i default).pos)
    ∧ (pairStep cfg st ij).audio.count "Random32.wav"
        = st.audio.count "Random32.wav"
          + (killInd cfg st.bullets ij.1 + killInd cfg st.bullets ij.2)
    ∧ (pairStep cfg st ij).rumbles.length
        = st.rumbles.length
          + 2 * cfg.g * (killInd cfg st.bullets ij.1 + killInd cfg st.bullets ij.2)
    ∧ (pairStep cfg st ij).screenshake
        = st.screenshake
          + ((killInd cfg st.bullets ij.1 + killInd cfg st.bullets ij.2 : ℕ) : ℝ)
            * SCREENSHAKE_ON_DEATH
          + ((bounceInd cfg st.bullets ij : ℕ) : ℝ) * SCREENSHAKE_ON_BOUNCE := by
  obtain ⟨hb1, ha1, hr1, hs1⟩ :=
    killCheck_spec cfg (st.bullets.getD ij.1 default) st
  obtain ⟨hb2, ha2, hr2, hs2⟩ :=
    killCheck_spec cfg (st.bullets.getD ij.2 default)
      (killCheck cfg (st.bullets.getD ij.1 default) st)
  have hbb : (killCheck cfg (st.bullets.getD ij.2 default)
      (killCheck cfg (st.bullets.getD ij.1 default) st)).bullets = st.bullets := by
    rw [hb2, hb1]
  obtain ⟨hb3, hp3, ha3, hr3, hs3⟩ :=
    bounceStep_spec cfg (st.bullets.getD ij.1 default) (st.bullets.getD ij.2 default)
      ij (killCheck cfg (st.bullets.getD ij.2 default)
        (killCheck cfg (st.bullets.getD ij.1 default) st))
      (by rw [hbb]) (by rw [hbb])
  unfold pairStep
  refine ⟨?_, ?_, ?_, ?_, ?_⟩
  · rw [hb3, hbb]
  · intro i
    rw [hp3 i, hbb]
  · rw [ha3, ha2, ha1]
    unfold killInd
    exact Nat.add_assoc _ _ _
  · rw [hr3, hr2, hr1]
    unfold killInd
    ring
  · rw [hs3, hs2, hs1]
    unfold killInd bounceInd
    push_cast
    ring

lemma foldl_pairStep_spec (cfg : CollisionCfg) :
    ∀ (L : List (ℕ × ℕ)) (st : ColState),
      (L.foldl (pairStep cfg) st).bullets.length = st.bullets.length
      ∧ (∀ i, ((L.foldl (pairStep cfg) st).bullets.getD i default).pos
            = (st.bullets.getD i default).pos)
      ∧ (L.foldl (pairStep cfg) st).audio.count "Random32.wav"
          = st.audio.count "Random32.wav"
            + (L.map (fun ij =>
                killInd cfg st.bullets ij.1 + killInd cfg st.bullets ij.2)).sum
      ∧ (L.foldl (pairStep cfg) st).rumbles.length
          = st.rumbles.length
            + 2 * cfg.g
              * (L.map (fun ij =>
                  killInd cfg st.bullets ij.1 + killInd cfg st.bullets ij.2)).sum
      ∧ (L.foldl (pairStep cfg) st).screenshake
          = st.screenshake
            + (((L.map (fun ij =>
                killInd cfg st.bullets ij.1 + killInd cfg st.bullets ij.2)).sum : ℕ) : ℝ)
              * SCREENSHAKE_ON_DEATH
            + (((L.map (bounceInd cfg st.bullets)).sum : ℕ) : ℝ)
              * SCREENSHAKE_ON_BOUNCE := by
  intro L
  induction L with
  | nil =>
    intro st
    refine ⟨rfl, fun i => rfl, by simp, by simp, by simp⟩
  | cons ij L ih =>
    intro st
    obtain ⟨hb1, hp1, ha1, hr1, hs1⟩ := pairStep_spec cfg st ij
    obtain ⟨hb2, hp2, ha2, hr2, hs2⟩ := ih (pairStep cfg st ij)
    have hmapk : L.map (fun p =>
          killInd cfg (pairStep cfg st ij).bullets p.1
            + killInd cfg (pairStep cfg st ij).bullets p.2)
        = L.map (fun p => killInd cfg st.bullets p.1 + killInd cfg st.bullets p.2) := by
      apply List.map_congr_left
      intro p _
      rw [killInd_congr hp1, killInd_congr hp1]
    have hmapb : L.map (bounceInd cfg (pairStep cfg st ij).bullets)
        = L.map (bounceInd cfg st.bullets) := by
      apply List.map_congr_left
      intro p _
      exact bounceInd_congr hp1 p
    refine ⟨?_, ?_, ?_, ?_, ?_⟩
    · rw [List.foldl_cons, hb2, hb1]
    · intro i
      rw [List.foldl_cons, hp2 i, hp1 i]
    · rw [List.foldl_cons, ha2, hmapk, ha1, List.map_cons, List.sum_cons]
      omega
    · rw [List.foldl_cons, hr2, hmapk, hr1, List.map_cons, List.sum_cons]
      ring
    · rw [List.foldl_cons, hs2, hmapk, hmapb, hs1, List.map_cons, List.sum_cons,
        List.map_cons, List.sum_cons]
      push_cast
      ring

lemma sum_map_const_add (c : ℕ) (k : ℕ → ℕ) (l : List ℕ) :
    (l.map (fun j => c + k j)).sum = l.length * c + (l.map k).sum := by
  induction l with
  | nil => simp
  | cons x xs ih =>
    simp only [List.map_cons, List.sum_cons, List.length_cons, ih]
    ring

lemma combPairs_sum (k : ℕ → ℕ) (l : List ℕ) :
    ((combPairs l).map (fun ij => k ij.1 + k ij.2)).sum
      = (l.length - 1) * (l.map k).sum := by
  induction l with
  | nil => simp [combPairs]
  | cons i rest ih =>
    rw [show combPairs (i :: rest) = (rest.map (fun j => (i, j))) ++ combPairs rest
      from rfl]
    rw [List.map_append, List.sum_append, List.map_map]
    rw [show ((fun ij : ℕ × ℕ => k ij.1 + k ij.2) ∘ (fun j => (i, j)))
      = fun j => k i + k j from rfl]
    rw [sum_map_const_add (k i) k rest, ih]
    cases rest with
    | nil => simp
    | cons x xs =>
      simp only [List.length_cons, List.map_cons, List.sum_cons, Nat.add_sub_cancel]
      ring

lemma sum_map_range_single (k : ℕ → ℕ) :
    ∀ n k0, k0 < n → k k0 = 1 → (∀ i, i < n → i ≠ k0 → k i = 0) →
      ((List.range n).map k).sum = 1 := by
  intro n
  induction n with
  | zero => intro k0 h0 h1 h2; omega
  | succ m ih =>
    intro k0 h0 h1 h2
    rw [List.range_succ, List.map_append, List.sum_append]
    simp only [List.map_cons, List.map_nil, List.sum_cons, List.sum_nil]
    rcases eq_or_ne k0 m with he | hne
    · subst he
      have hz : ((List.range k0).map k).sum = 0 := by
        apply List.sum_eq_zero
        intro x hx
        obtain ⟨i, hi, rfl⟩ := List.mem_map.mp hx
        have hilt : i < k0 := List.mem_range.mp hi
        exact h2 i (by omega) (by omega)
      rw [hz, h1]
      omega
    · have hm : k m = 0 := h2 m (by omega) (by omega)
      have := ih k0 (by omega) h1 (fun i hi hne2 => h2 i (by omega) hne2)
      rw [this, hm]
      omega

/-- C2 (counterexample): the post-spawn cooldown amount is NOT non-increasing
in score — the amount added at score 10 strictly exceeds the amount added at
score 0 (0.05 at score 0, 2.0 at score 10), so the claimed shrink toward a
0.05 s floor is false. -/
theorem C2_counterexample : ¬ cooldownAdded 10 ≤ cooldownAdded 0 := by
  rw [cooldownAdded_cap le_rfl, cooldownAdded_zero]
  norm_num

/-- C2 (amended): the cooldown amount added after each projectile spawn is
non-decreasing in score — it starts at 0.05 s at score 0 and grows toward
2.0 s as score grows, capped at exactly 2.0 once score ≥ 10. -/
theorem C2_cooldown_added_grows (s t : ℝ) (hs : 0 ≤ s) (hst : s ≤ t) :
    cooldownAdded s ≤ cooldownAdded t
    ∧ cooldownAdded 0 = 0.05
    ∧ (10 ≤ s → cooldownAdded s = 2) :=
  ⟨cooldownAdded_mono hs hst, cooldownAdded_zero, fun h => cooldownAdded_cap h⟩

/-- Witness for C2: the amended statement instantiated at scores 10 and 12,
with both hypotheses discharged numerically. -/
theorem C2_cooldown_added_grows_witness :
    (0 : ℝ) ≤ 10 ∧ (10 : ℝ) ≤ 12
    ∧ (cooldownAdded 10 ≤ cooldownAdded 12
       ∧ cooldownAdded 0 = 0.05
       ∧ (10 ≤ (10 : ℝ) → cooldownAdded 10 = 2)) :=
  ⟨by norm_num, by norm_num,
    C2_cooldown_added_grows 10 12 (by norm_num) (by norm_num)⟩

/-- C3: for every non-negative score s (and every t ≥ s), the cooldown amount
added after a spawn equals the spec formula `lerp(0.05, 2.0, min(1, (s/10)²))`,
lies in [0.05, 2.0], is non-decreasing in the score, and equals exactly 2.0
once s ≥ 10. -/
theorem C3_cooldown_formula (s t : ℝ) (hs : 0 ≤ s) (hst : s ≤ t) :
    cooldownAdded s = cooldownAddedSpec s
    ∧ 0.05 ≤ cooldownAdded s
    ∧ cooldownAdded s ≤ 2.0
    ∧ cooldownAdded s ≤ cooldownAdded t
    ∧ (10 ≤ s → cooldownAdded s = 2.0) := by
  have h2 : (2.0 : ℝ) = 2 := by norm_num
  refine ⟨?_, cooldownAdded_lower s, h2 ▸ cooldownAdded_upper s,
    cooldownAdded_mono hs hst, fun h => h2 ▸ cooldownAdded_cap h⟩
  unfold cooldownAdded cooldownAddedSpec
  rw [min_comm]

/-- Witness for C3: the statement instantiated at scores 5 and 11, with both
hypotheses discharged numerically. -/
theorem C3_cooldown_formula_witness :
    (0 : ℝ) ≤ 5 ∧ (5 : ℝ) ≤ 11
    ∧ (cooldownAdded 5 = cooldownAddedSpec 5
       ∧ 0.05 ≤ cooldownAdded 5
       ∧ cooldownAdded 5 ≤ 2.0
       ∧ cooldownAdded 5 ≤ cooldownAdded 11
       ∧ (10 ≤ (5 : ℝ) → cooldownAdded 5 = 2.0)) :=
  ⟨by norm_num, by norm_num, C3_cooldown_formula 5 11 (by norm_num) (by norm_num)⟩

/-- C7: the score-to-text formatter produces "00:00:00" for input 0.0 and
"01:05:33" for input 65.33 (minutes, seconds, centiseconds, each zero-padded
to width 2). -/
theorem C7_format_examples :
    convert_time_to_text 0.0 = "00:00:00"
    ∧ convert_time_to_text 65.33 = "01:05:33" := by
  constructor
  · unfold convert_time_to_text
    rw [show ⌊(0.0 : ℚ) * 100⌋ = 0 by norm_num]
    decide
  · unfold convert_time_to_text
    rw [show ⌊(65.33 : ℚ) * 100⌋ = 6533 by norm_num]
    decide

/-- C8 (counterexample): the device-priority tracker's startup value is not
Mouse — `main` inserts `ControlDevice::Keyboard` into the
`PrimaryControlDevice` resource. -/
theorem C8_counterexample : initialPrimaryControlDevice ≠ ControlDevice.Mouse := by
  decide

/-- C8 (amended): the tracker's initial value at startup, before any input is
observed, is Keyboard; Mouse is only the variant selected by the enum's
derived `Default` implementation, which the startup insertion does not use. -/
theorem C8_initial_device :
    initialPrimaryControlDevice = ControlDevice.Keyboard
    ∧ controlDeviceDerivedDefault = ControlDevice.Mouse :=
  ⟨rfl, rfl⟩

/-- C9: for every player position and all display metrics whose half-extents
are at least the player radius r = PLAYER_SIZE · shorter_dimension, after
`clamp_player` the position satisfies |x| ≤ half_w − r and |y| ≤ half_h − r. -/
theorem C9_clamp_invariant (display : DisplayProperties) (p : Vec3)
    (hw : PLAYER_SIZE * display.shorter_dimension ≤ display.half_w)
    (hh : PLAYER_SIZE * display.shorter_dimension ≤ display.half_h) :
    |(clamp_player display p).x|
        ≤ display.half_w - PLAYER_SIZE * display.shorter_dimension
    ∧ |(clamp_player display p).y|
        ≤ display.half_h - PLAYER_SIZE * display.shorter_dimension := by
  constructor
  · obtain ⟨h1, h2⟩ := @rustClamp_mem
      (-display.half_w + PLAYER_SIZE * display.shorter_dimension)
      (display.half_w - PLAYER_SIZE * display.shorter_dimension)
      p.x (by linarith)
    rw [show (clamp_player display p).x
        = rustClamp p.x
            (-display.half_w + PLAYER_SIZE * display.shorter_dimension)
            (display.half_w - PLAYER_SIZE * display.shorter_dimension) from rfl]
    rw [abs_le]
    exact ⟨by linarith, h2⟩
  · obtain ⟨h1, h2⟩ := @rustClamp_mem
      (-display.half_h + PLAYER_SIZE * display.shorter_dimension)
      (display.half_h - PLAYER_SIZE * display.shorter_dimension)
      p.y (by linarith)
    rw [show (clamp_player display p).y
        = rustClamp p.y
            (-display.half_h + PLAYER_SIZE * display.shorter_dimension)
            (display.half_h - PLAYER_SIZE * display.shorter_dimension) from rfl]
    rw [abs_le]
    exact ⟨by linarith, h2⟩

/-- Witness for C9: the clamp invariant instantiated with the startup display
metrics (radius 9.6, half-extents 320 and 240) and a far out-of-bounds
position. -/
theorem C9_clamp_invariant_witness :
    PLAYER_SIZE * initialDisplayProperties.shorter_dimension
        ≤ initialDisplayProperties.half_w
    ∧ PLAYER_SIZE * initialDisplayProperties.shorter_dimension
        ≤ initialDisplayProperties.half_h
    ∧ (|(clamp_player initialDisplayProperties ⟨1000, -1000, 5⟩).x|
          ≤ initialDisplayProperties.half_w
            - PLAYER_SIZE * initialDisplayProperties.shorter_dimension
       ∧ |(clamp_player initialDisplayProperties ⟨1000, -1000, 5⟩).y|
          ≤ initialDisplayProperties.half_h
            - PLAYER_SIZE * initialDisplayProperties.shorter_dimension) :=
  ⟨by norm_num [PLAYER_SIZE, initialDisplayProperties],
   by norm_num [PLAYER_SIZE, initialDisplayProperties],
   C9_clamp_invariant initialDisplayProperties ⟨1000, -1000, 5⟩
     (by norm_num [PLAYER_SIZE, initialDisplayProperties])
     (by norm_num [PLAYER_SIZE, initialDisplayProperties])⟩

/-- C6: one bounce-physics fixed step changes at most the sign of each
velocity component (z is untouched), so the velocity magnitude is exactly the
same before and after any edge reflection; in particular a unit-magnitude
velocity stays unit-magnitude. -/
theorem C6_bounce_preserves_speed (display : DisplayProperties) (dt : ℝ)
    (b : Bullet) :
    ((moveBouncerStep display dt b).vel.x = b.vel.x
      ∨ (moveBouncerStep display dt b).vel.x = -b.vel.x)
    ∧ ((moveBouncerStep display dt b).vel.y = b.vel.y
      ∨ (moveBouncerStep display dt b).vel.y = -b.vel.y)
    ∧ (moveBouncerStep display dt b).vel.z = b.vel.z
    ∧ (moveBouncerStep display dt b).vel.length = b.vel.length := by
  refine ⟨?_, ?_, ?_, ?_⟩
  · simp only [moveBouncerStep]
    split_ifs <;> simp
  · simp only [moveBouncerStep]
    split_ifs <;> simp
  · simp [moveBouncerStep]
  · simp only [moveBouncerStep, Vec3.length]
    split_ifs <;> (congr 1 <;> ring)

/-- C4 (code bug): on a tick with the spawn cooldown expired and the aim
coincident with the player (both at the origin), `spawn_bullet` does NOT skip
the tick: it spawns a projectile whose velocity is the degenerate
normalize-of-zero result (NaN components in `f32`; in this real-valued model
the zero vector, of length 0 rather than 1), contradicting the claimed no-op
guard. -/
theorem C4_zero_direction_spawn :
    (spawn_bullet initialDisplayProperties 0 ⟨0, 0, 0⟩ ⟨0, 0, 0⟩ 0 (1 / 60)
        c4State).bullets.length = c4State.bullets.length + 1
    ∧ ((spawn_bullet initialDisplayProperties 0 ⟨0, 0, 0⟩ ⟨0, 0, 0⟩ 0 (1 / 60)
        c4State).bullets.getD 0 default).vel = ⟨0, 0, 0⟩
    ∧ ((spawn_bullet initialDisplayProperties 0 ⟨0, 0, 0⟩ ⟨0, 0, 0⟩ 0 (1 / 60)
        c4State).bullets.getD 0 default).vel.length = 0 := by
  have h1 : ((⟨0, 0, 0⟩ : Vec3) - ⟨0, 0, 0⟩) = (⟨0, 0, 0⟩ : Vec3) := by
    rw [Vec3.sub_def]
    norm_num
  have h2 : (⟨0, 0, 0⟩ : Vec3).length = 0 := by
    unfold Vec3.length
    simp
  have h3 : ((⟨0, 0, 0⟩ : Vec3) - ⟨0, 0, 0⟩).normalize = (⟨0, 0, 0⟩ : Vec3) := by
    rw [h1]
    unfold Vec3.normalize
    rw [h2]
    unfold Vec3.smul
    norm_num
  have hng : ¬ ((c4State.bulletTimer - 1 / 60 : ℝ) > 0) := by
    show ¬ ((0 : ℝ) - 1 / 60 > 0)
    norm_num
  simp only [spawn_bullet]
  rw [if_neg hng, h3]
  exact ⟨rfl, rfl, h2⟩

/-- C1 (code bug): with exactly one live projectile — here inside the kill
threshold, at distance 1 < 19.2 from the player — one fixed-step run of the
collision resolver leaves the state completely untouched: no `GameOver`
transition is requested and virtual time is not paused, because the
player-kill check only executes inside the pair-combinations loop, which is
empty for a single projectile. -/
theorem C1_single_projectile_no_kill :
    (c1State.bullets.getD 0 default).pos.dist exCfg.player
        < collisionDistance exCfg.display
    ∧ c1State.bullets.length = 1
    ∧ handle_bullet_collision exCfg c1State = c1State
    ∧ (handle_bullet_collision exCfg c1State).nextState = none
    ∧ (handle_bullet_collision exCfg c1State).virtualPaused = false := by
  refine ⟨?_, rfl, rfl, rfl, rfl⟩
  have h : (c1State.bullets.getD 0 default).pos.dist exCfg.player = 1 :=
    Vec3.dist_eq (by norm_num) (by
      show ((1 : ℝ) - 0) ^ 2 + ((0 : ℝ) - 0) ^ 2 + ((0 : ℝ) - 0) ^ 2 = 1 ^ 2
      norm_num)
  rw [h]
  norm_num [collisionDistance, exCfg, initialDisplayProperties, PLAYER_SIZE]

lemma pairStep_bullets (cfg : CollisionCfg) (st : ColState) (ij : ℕ × ℕ) :
    (pairStep cfg st ij).bullets =
      if (st.bullets.getD ij.1 default).pos.dist (st.bullets.getD ij.2 default).pos
          > collisionDistance cfg.display then st.bullets
      else if (st.bullets.getD ij.1 default).pos.dist (st.bullets.getD ij.2 default).pos
          < 1.0 then st.bullets
      else
        (st.bullets.set ij.1
          { st.bullets.getD ij.1 default with
            vel := ((st.bullets.getD ij.1 default).pos
              - (st.bullets.getD ij.2 default).pos).normalize }).set ij.2
          { st.bullets.getD ij.2 default with
            vel := -((st.bullets.getD ij.1 default).pos
              - (st.bullets.getD ij.2 default).pos).normalize } := by
  have hbb : ∀ b1 b2 : Bullet,
      (killCheck cfg b2 (killCheck cfg b1 st)).bullets = st.bullets := fun b1 b2 => by
    rw [(killCheck_spec cfg _ _).1, (killCheck_spec cfg _ _).1]
  unfold pairStep bounceStep
  split_ifs <;> simp [hbb]

/-- C5 (amended): with exactly two live projectiles A, B at distance d
satisfying 1.0 ≤ d < threshold, after the collision resolver runs,
A.velocity = −B.velocity and both velocities have unit magnitude. (With three
or more projectiles a later pair in the same pass can overwrite a member's
velocity, see the counterexample.) -/
theorem C5_pair_reflection (cfg : CollisionCfg) (st : ColState) (A B : Bullet)
    (hbs : st.bullets = [A, B])
    (h1 : 1 ≤ A.pos.dist B.pos)
    (h2 : A.pos.dist B.pos < collisionDistance cfg.display) :
    ((handle_bullet_collision cfg st).bullets.getD 0 default).vel
        = -(((handle_bullet_collision cfg st).bullets.getD 1 default).vel)
    ∧ ((handle_bullet_collision cfg st).bullets.getD 0 default).vel.length = 1
    ∧ ((handle_bullet_collision cfg st).bullets.getD 1 default).vel.length = 1 := by
  have hn : st.bullets.length = 2 := by rw [hbs]; rfl
  have hfold : handle_bullet_collision cfg st = pairStep cfg st (0, 1) := by
    unfold handle_bullet_collision
    rw [hn]
    rw [show combPairs (List.range 2) = [(0, 1)] from rfl]
    rw [List.foldl_cons, List.foldl_nil]
  have hA : st.bullets.getD (0, 1).1 default = A := by rw [hbs]; rfl
  have hB : st.bullets.getD (0, 1).2 default = B := by rw [hbs]; rfl
  have hgt : ¬ (A.pos.dist B.pos > collisionDistance cfg.display) := not_lt.mpr h2.le
  have hlt : ¬ (A.pos.dist B.pos < 1.0) :=
    not_lt.mpr (by rw [show (1.0 : ℝ) = 1 by norm_num]; exact h1)
  have hbul : (pairStep cfg st (0, 1)).bullets
      = [{ A with vel := (A.pos - B.pos).normalize },
         { B with vel := -(A.pos - B.pos).normalize }] := by
    rw [pairStep_bullets, hA, hB, if_neg hgt, if_neg hlt, hbs]
    rfl
  have hne : (A.pos - B.pos).length ≠ 0 := by
    have hpos : (0 : ℝ) < A.pos.dist B.pos := lt_of_lt_of_le one_pos h1
    unfold Vec3.dist at hpos
    exact ne_of_gt hpos
  rw [hfold, hbul]
  refine ⟨?_, ?_, ?_⟩
  · show (A.pos - B.pos).normalize = -(-(A.pos - B.pos).normalize)
    rw [Vec3.neg_neg]
  · show (A.pos - B.pos).normalize.length = 1
    exact Vec3.length_normalize hne
  · show (-(A.pos - B.pos).normalize).length = 1
    rw [Vec3.length_neg]
    exact Vec3.length_normalize hne

/-- Witness for C5: the amended statement instantiated on two projectiles at
distance 3 (inside the band [1, 19.2)), with all hypotheses discharged
numerically. -/
theorem C5_pair_reflection_witness :
    c5State.bullets
        = [{ pos := ⟨3, 0, 0⟩, vel := ⟨0, 0, 1⟩ },
           { pos := ⟨0, 0, 0⟩, vel := ⟨0, 1, 0⟩ }]
    ∧ (1 : ℝ) ≤ (⟨3, 0, 0⟩ : Vec3).dist ⟨0, 0, 0⟩
    ∧ (⟨3, 0, 0⟩ : Vec3).dist ⟨0, 0, 0⟩ < collisionDistance exCfg.display
    ∧ (((handle_bullet_collision exCfg c5State).bullets.getD 0 default).vel
        = -(((handle_bullet_collision exCfg c5State).bullets.getD 1 default).vel)
      ∧ ((handle_bullet_collision exCfg c5State).bullets.getD 0 default).vel.length = 1
      ∧ ((handle_bullet_collision exCfg c5State).bullets.getD 1 default).vel.length = 1) := by
  have hd : (⟨3, 0, 0⟩ : Vec3).dist ⟨0, 0, 0⟩ = 3 :=
    Vec3.dist_eq (by norm_num) (by norm_num)
  refine ⟨rfl, ?_, ?_, ?_⟩
  · rw [hd]
    norm_num
  · rw [hd]
    norm_num [collisionDistance, exCfg, initialDisplayProperties, PLAYER_SIZE]
  · exact C5_pair_reflection exCfg c5State
      { pos := ⟨3, 0, 0⟩, vel := ⟨0, 0, 1⟩ }
      { pos := ⟨0, 0, 0⟩, vel := ⟨0, 1, 0⟩ }
      rfl
      (by show (1 : ℝ) ≤ (⟨3, 0, 0⟩ : Vec3).dist ⟨0, 0, 0⟩
          rw [hd]
          norm_num)
      (by show (⟨3, 0, 0⟩ : Vec3).dist ⟨0, 0, 0⟩ < collisionDistance exCfg.display
          rw [hd]
          norm_num [collisionDistance, exCfg, initialDisplayProperties, PLAYER_SIZE])

lemma Vec3.mk_eq {a b c a' b' c' : ℝ} (h1 : a = a') (h2 : b = b') (h3 : c = c') :
    Vec3.mk a b c = Vec3.mk a' b' c' := by
  rw [h1, h2, h3]

/-- C5 (counterexample): with three projectiles at mutual distances 3, 4, 5 —
all inside the bounce band [1, 19.2) — the pair (0, 2) violates the claimed
symmetry after the resolver runs: the later pair (1, 2) overwrites bullet 2's
velocity after the pair (0, 2) has been resolved, so bullet 0's final
velocity is not the negation of bullet 2's. -/
theorem C5_counterexample :
    (1 : ℝ) ≤ (⟨0, 0, 0⟩ : Vec3).dist ⟨0, 4, 0⟩
    ∧ (⟨0, 0, 0⟩ : Vec3).dist ⟨0, 4, 0⟩ < collisionDistance exCfg.display
    ∧ ¬ (((handle_bullet_collision exCfg c5cState).bullets.getD 0 default).vel
          = -(((handle_bullet_collision exCfg c5cState).bullets.getD 2 default).vel)) := by
  have hcd : collisionDistance exCfg.display = 19.2 := by
    norm_num [collisionDistance, exCfg, initialDisplayProperties, PLAYER_SIZE]
  have hd01 : (⟨0, 0, 0⟩ : Vec3).dist ⟨3, 0, 0⟩ = 3 :=
    Vec3.dist_eq (by norm_num) (by norm_num)
  have hd02 : (⟨0, 0, 0⟩ : Vec3).dist ⟨0, 4, 0⟩ = 4 :=
    Vec3.dist_eq (by norm_num) (by norm_num)
  have hd12 : (⟨3, 0, 0⟩ : Vec3).dist ⟨0, 4, 0⟩ = 5 :=
    Vec3.dist_eq (by norm_num) (by norm_num)
  refine ⟨by rw [hd02]; norm_num, by rw [hd02, hcd]; norm_num, ?_⟩
  have hsub01 : (⟨0, 0, 0⟩ : Vec3) - ⟨3, 0, 0⟩ = ⟨-3, 0, 0⟩ :=
    Vec3.mk_eq (by norm_num) (by norm_num) (by norm_num)
  have hsub02 : (⟨0, 0, 0⟩ : Vec3) - ⟨0, 4, 0⟩ = ⟨0, -4, 0⟩ :=
    Vec3.mk_eq (by norm_num) (by norm_num) (by norm_num)
  have hsub12 : (⟨3, 0, 0⟩ : Vec3) - ⟨0, 4, 0⟩ = ⟨3, -4, 0⟩ :=
    Vec3.mk_eq (by norm_num) (by norm_num) (by norm_num)
  have hn01 : (⟨-3, 0, 0⟩ : Vec3).normalize = ⟨-1, 0, 0⟩ := by
    rw [@Vec3.normalize_eval ⟨-3, 0, 0⟩ 3 (by norm_num) (by norm_num)]
    exact Vec3.mk_eq (by norm_num) (by norm_num) (by norm_num)
  have hn02 : (⟨0, -4, 0⟩ : Vec3).normalize = ⟨0, -1, 0⟩ := by
    rw [@Vec3.normalize_eval ⟨0, -4, 0⟩ 4 (by norm_num) (by norm_num)]
    exact Vec3.mk_eq (by norm_num) (by norm_num) (by norm_num)
  have hn12 : (⟨3, -4, 0⟩ : Vec3).normalize = ⟨3 / 5, -4 / 5, 0⟩ := by
    rw [@Vec3.normalize_eval ⟨3, -4, 0⟩ 5 (by norm_num) (by norm_num)]
    exact Vec3.mk_eq (by norm_num) (by norm_num) (by norm_num)
  have hneg1 : -(⟨-1, 0, 0⟩ : Vec3) = ⟨1, 0, 0⟩ :=
    Vec3.mk_eq (by norm_num) (by norm_num) (by norm_num)
  have hneg2 : -(⟨0, -1, 0⟩ : Vec3) = ⟨0, 1, 0⟩ :=
    Vec3.mk_eq (by norm_num) (by norm_num) (by norm_num)
  have hneg3 : -(⟨3 / 5, -4 / 5, 0⟩ : Vec3) = ⟨-3 / 5, 4 / 5, 0⟩ :=
    Vec3.mk_eq (by norm_num) (by norm_num) (by norm_num)
  have e1 : (pairStep exCfg c5cState (0, 1)).bullets
      = [{ pos := ⟨0, 0, 0⟩, vel := ⟨-1, 0, 0⟩ },
         { pos := ⟨3, 0, 0⟩, vel := ⟨1, 0, 0⟩ },
         { pos := ⟨0, 4, 0⟩, vel := ⟨0, 0, 1⟩ }] := by
    rw [pairStep_bullets]
    rw [if_neg (show ¬ ((c5cState.bullets.getD (0, 1).1 default).pos.dist
          (c5cState.bullets.getD (0, 1).2 default).pos
            > collisionDistance exCfg.display) by
        show ¬ ((⟨0, 0, 0⟩ : Vec3).dist ⟨3, 0, 0⟩ > collisionDistance exCfg.display)
        rw [hd01, hcd]
        norm_num)]
    rw [if_neg (show ¬ ((c5cState.bullets.getD (0, 1).1 default).pos.dist
          (c5cState.bullets.getD (0, 1).2 default).pos < 1.0) by
        show ¬ ((⟨0, 0, 0⟩ : Vec3).dist ⟨3, 0, 0⟩ < 1.0)
        rw [hd01]
        norm_num)]
    show (c5cState.bullets.set 0
        { pos := ⟨0, 0, 0⟩, vel := ((⟨0, 0, 0⟩ : Vec3) - ⟨3, 0, 0⟩).normalize }).set 1
        { pos := ⟨3, 0, 0⟩, vel := -(((⟨0, 0, 0⟩ : Vec3) - ⟨3, 0, 0⟩).normalize) } = _
    rw [hsub01, hn01, hneg1]
    rfl
  have e2 : ∀ st : ColState, st.bullets
      = [{ pos := ⟨0, 0, 0⟩, vel := ⟨-1, 0, 0⟩ },
         { pos := ⟨3, 0, 0⟩, vel := ⟨1, 0, 0⟩ },
         { pos := ⟨0, 4, 0⟩, vel := ⟨0, 0, 1⟩ }] →
      (pairStep exCfg st (0, 2)).bullets
        = [{ pos := ⟨0, 0, 0⟩, vel := ⟨0, -1, 0⟩ },
           { pos := ⟨3, 0, 0⟩, vel := ⟨1, 0, 0⟩ },
           { pos := ⟨0, 4, 0⟩, vel := ⟨0, 1, 0⟩ }] := by
    intro st h
    rw [pairStep_bullets, h]
    show (if (⟨0, 0, 0⟩ : Vec3).dist ⟨0, 4, 0⟩ > collisionDistance exCfg.display
        then _ else if (⟨0, 0, 0⟩ : Vec3).dist ⟨0, 4, 0⟩ < 1.0 then _ else _) = _
    rw [if_neg (show ¬ ((⟨0, 0, 0⟩ : Vec3).dist ⟨0, 4, 0⟩
          > collisionDistance exCfg.display) by
        rw [hd02, hcd]
        norm_num)]
    rw [if_neg (show ¬ ((⟨0, 0, 0⟩ : Vec3).dist ⟨0, 4, 0⟩ < 1.0) by
        rw [hd02]
        norm_num)]
    show ((([{ pos := ⟨0, 0, 0⟩, vel := ⟨-1, 0, 0⟩ },
           { pos := ⟨3, 0, 0⟩, vel := ⟨1, 0, 0⟩ },
           { pos := ⟨0, 4, 0⟩, vel := ⟨0, 0, 1⟩ }] : List Bullet).set 0
        { pos := ⟨0, 0, 0⟩, vel := ((⟨0, 0, 0⟩ : Vec3) - ⟨0, 4, 0⟩).normalize }).set 2
        { pos := ⟨0, 4, 0⟩, vel := -(((⟨0, 0, 0⟩ : Vec3) - ⟨0, 4, 0⟩).normalize) }) = _
    rw [hsub02, hn02, hneg2]
    rfl
  have e3 : ∀ st : ColState, st.bullets
      = [{ pos := ⟨0, 0, 0⟩, vel := ⟨0, -1, 0⟩ },
         { pos := ⟨3, 0, 0⟩, vel := ⟨1, 0, 0⟩ },
         { pos := ⟨0, 4, 0⟩, vel := ⟨0, 1, 0⟩ }] →
      (pairStep exCfg st (1, 2)).bullets
        = [{ pos := ⟨0, 0, 0⟩, vel := ⟨0, -1, 0⟩ },
           { pos := ⟨3, 0, 0⟩, vel := ⟨3 / 5, -4 / 5, 0⟩ },
           { pos := ⟨0, 4, 0⟩, vel := ⟨-3 / 5, 4 / 5, 0⟩ }] := by
    intro st h
    rw [pairStep_bullets, h]
    show (if (⟨3, 0, 0⟩ : Vec3).dist ⟨0, 4, 0⟩ > collisionDistance exCfg.display
        then _ else if (⟨3, 0, 0⟩ : Vec3).dist ⟨0, 4, 0⟩ < 1.0 then _ else _) = _
    rw [if_neg (show ¬ ((⟨3, 0, 0⟩ : Vec3).dist ⟨0, 4, 0⟩
          > collisionDistance exCfg.display) by
        rw [hd12, hcd]
        norm_num)]
    rw [if_neg (show ¬ ((⟨3, 0, 0⟩ : Vec3).dist ⟨0, 4, 0⟩ < 1.0) by
        rw [hd12]
        norm_num)]
    show ((([{ pos := ⟨0, 0, 0⟩, vel := ⟨0, -1, 0⟩ },
           { pos := ⟨3, 0, 0⟩, vel := ⟨1, 0, 0⟩ },
           { pos := ⟨0, 4, 0⟩, vel := ⟨0, 1, 0⟩ }] : List Bullet).set 1
        { pos := ⟨3, 0, 0⟩, vel := ((⟨3, 0, 0⟩ : Vec3) - ⟨0, 4, 0⟩).normalize }).set 2
        { pos := ⟨0, 4, 0⟩, vel := -(((⟨3, 0, 0⟩ : Vec3) - ⟨0, 4, 0⟩).normalize) }) = _
    rw [hsub12, hn12, hneg3]
    rfl
  have hfold : (handle_bullet_collision exCfg c5cState).bullets
      = [{ pos := ⟨0, 0, 0⟩, vel := ⟨0, -1, 0⟩ },
         { pos := ⟨3, 0, 0⟩, vel := ⟨3 / 5, -4 / 5, 0⟩ },
         { pos := ⟨0, 4, 0⟩, vel := ⟨-3 / 5, 4 / 5, 0⟩ }] := by
    unfold handle_bullet_collision
    rw [show combPairs (List.range c5cState.bullets.length)
        = [(0, 1), (0, 2), (1, 2)] from rfl]
    rw [List.foldl_cons, List.foldl_cons, List.foldl_cons, List.foldl_nil]
    exact e3 _ (e2 _ e1)
  rw [hfold]
  intro hcontra
  have hx := congrArg Vec3.x hcontra
  have hx' : (0 : ℝ) = -(-3 / 5) := hx
  norm_num at hx'

/-- C10: when n ≥ 2 projectiles are alive and exactly one of them is within
the kill threshold of the player, a single fixed-step run of the collision
resolver applies the death side effects once per unordered pair containing
that projectile — that is, n − 1 times, not once: n − 1 death-audio requests,
2·(n − 1) rumble requests per connected gamepad, and (n − 1) death-screenshake
increments of `SCREENSHAKE_ON_DEATH = 0.01` (on top of the independent bounce
contributions). -/
theorem C10_death_effects_multiplicity (cfg : CollisionCfg) (st : ColState)
    (k0 : ℕ) (hn : 2 ≤ st.bullets.length) (hk : k0 < st.bullets.length)
    (hkill : (st.bullets.getD k0 default).pos.dist cfg.player
        < collisionDistance cfg.display)
    (hothers : ∀ i, i < st.bullets.length → i ≠ k0 →
        ¬ ((st.bullets.getD i default).pos.dist cfg.player
            < collisionDistance cfg.display)) :
    (handle_bullet_collision cfg st).audio.count "Random32.wav"
        = st.audio.count "Random32.wav" + (st.bullets.length - 1)
    ∧ (handle_bullet_collision cfg st).rumbles.length
        = st.rumbles.length + 2 * cfg.g * (st.bullets.length - 1)
    ∧ (handle_bullet_collision cfg st).screenshake
        = st.screenshake
          + ((st.bullets.length - 1 : ℕ) : ℝ) * SCREENSHAKE_ON_DEATH
          + ((bounceCount cfg st : ℕ) : ℝ) * SCREENSHAKE_ON_BOUNCE := by
  obtain ⟨hb, hp, ha, hr, hs⟩ :=
    foldl_pairStep_spec cfg (combPairs (List.range st.bullets.length)) st
  have hk1 : killInd cfg st.bullets k0 = 1 := by
    unfold killInd
    rw [if_pos hkill]
  have hk0 : ∀ i, i < st.bullets.length → i ≠ k0 → killInd cfg st.bullets i = 0 := by
    intro i h1 h2
    unfold killInd
    rw [if_neg (hothers i h1 h2)]
  have hone : ((List.range st.bullets.length).map (killInd cfg st.bullets)).sum = 1 :=
    sum_map_range_single (killInd cfg st.bullets) st.bullets.length k0 hk hk1 hk0
  have hsum : ((combPairs (List.range st.bullets.length)).map (fun ij =>
      killInd cfg st.bullets ij.1 + killInd cfg st.bullets ij.2)).sum
      = st.bullets.length - 1 := by
    rw [combPairs_sum (killInd cfg st.bullets) (List.range st.bullets.length),
      List.length_range, hone, Nat.mul_one]
  refine ⟨?_, ?_, ?_⟩
  · show ((combPairs (List.range st.bullets.length)).foldl (pairStep cfg)
        st).audio.count "Random32.wav" = _
    rw [ha, hsum]
  · show ((combPairs (List.range st.bullets.length)).foldl (pairStep cfg)
        st).rumbles.length = _
    rw [hr, hsum]
  · show ((combPairs (List.range st.bullets.length)).foldl (pairStep cfg)
        st).screenshake = _
    rw [hs, hsum]
    rfl

/-- Witness for C10: the statement instantiated with two projectiles, the
first at distance 3 from the player (inside the 19.2 threshold) and the
second at distance 100 (outside it); the death side effects fire exactly
n − 1 = 1 time. -/
theorem C10_death_effects_multiplicity_witness :
    2 ≤ c10State.bullets.length
    ∧ 0 < c10State.bullets.length
    ∧ (c10State.bullets.getD 0 default).pos.dist exCfg.player
        < collisionDistance exCfg.display
    ∧ (∀ i, i < c10State.bullets.length → i ≠ 0 →
        ¬ ((c10State.bullets.getD i default).pos.dist exCfg.player
            < collisionDistance exCfg.display))
    ∧ ((handle_bullet_collision exCfg c10State).audio.count "Random32.wav"
          = c10State.audio.count "Random32.wav" + (c10State.bullets.length - 1)
       ∧ (handle_bullet_collision exCfg c10State).rumbles.length
          = c10State.rumbles.length
            + 2 * exCfg.g * (c10State.bullets.length - 1)
       ∧ (handle_bullet_collision exCfg c10State).screenshake
          = c10State.screenshake
            + ((c10State.bullets.length - 1 : ℕ) : ℝ) * SCREENSHAKE_ON_DEATH
            + ((bounceCount exCfg c10State : ℕ) : ℝ) * SCREENSHAKE_ON_BOUNCE) := by
  have hkill : (c10State.bullets.getD 0 default).pos.dist exCfg.player
      < collisionDistance exCfg.display := by
    have hd : (c10State.bullets.getD 0 default).pos.dist exCfg.player = 3 :=
      Vec3.dist_eq (by norm_num) (by
        show ((3 : ℝ) - 0) ^ 2 + ((0 : ℝ) - 0) ^ 2 + ((0 : ℝ) - 0) ^ 2 = 3 ^ 2
        norm_num)
    rw [hd]
    norm_num [collisionDistance, exCfg, initialDisplayProperties, PLAYER_SIZE]
  have hothers : ∀ i, i < c10State.bullets.length → i ≠ 0 →
      ¬ ((c10State.bullets.getD i default).pos.dist exCfg.player
          < collisionDistance exCfg.display) := by
    intro i h1 h2
    have hi : i = 1 := by
      have : c10State.bullets.length = 2 := rfl
      omega
    subst hi
    apply Vec3.not_dist_lt
    · norm_num [collisionDistance, exCfg, initialDisplayProperties, PLAYER_SIZE]
    · show collisionDistance exCfg.display ^ 2
          ≤ ((100 : ℝ) - 0) ^ 2 + ((0 : ℝ) - 0) ^ 2 + ((0 : ℝ) - 0) ^ 2
      norm_num [collisionDistance, exCfg, initialDisplayProperties, PLAYER_SIZE]
  exact ⟨by norm_num [c10State], by norm_num [c10State], hkill, hothers,
    C10_death_effects_multiplicity exCfg c10State 0 (by norm_num [c10State])
      (by norm_num [c10State]) hkill hothers⟩

end DodgeBall
